import Mathlib

/-!
Shallow embedding of the statistical core of `src/streamlit_app.py`:
the control-limit calculator (`calculate_control_chart_metrics`), the
capability-index calculator (`calculate_process_capability`), and the
x-axis resolution selection in `create_control_chart`.

The numeric code runs on pandas/NumPy float64 scalars, so results can be
NaN or infinite.  We model a float scalar as `PyFloat`: NaN, +inf, -inf,
or a finite real value.  A measurement series is a `List (Option ℝ)`:
`none` is an absent (NaN) cell, skipped by pandas `mean`/`std` (skipna).
`mean` of an empty present-set is NaN; `std` uses ddof = 1 and is NaN
whenever fewer than two values are present.  Python comparisons with NaN
are false, `NaN != 0` is true, and `min(a, b)` returns `b` exactly when
`b < a`.  The axis selector only compares the time span (a number of
seconds, exact in the source data) against integer bounds, so it is
modelled over ℚ and stays fully computable.
-/

namespace ProcessMetrics

open scoped Classical

/-- A pandas/NumPy float64 scalar: NaN, positive infinity, negative
infinity, or a finite real value. -/
inductive PyFloat where
  | nan : PyFloat
  | inf : PyFloat
  | ninf : PyFloat
  | val : ℝ → PyFloat

/-- IEEE-754 addition on `PyFloat` (the subset of cases that arise:
NaN propagates, infinities absorb finite values, opposite infinities
give NaN). -/
noncomputable def pyAdd : PyFloat → PyFloat → PyFloat
  | .nan, _ => .nan
  | .inf, .nan => .nan
  | .inf, .inf => .inf
  | .inf, .ninf => .nan
  | .inf, .val _ => .inf
  | .ninf, .nan => .nan
  | .ninf, .inf => .nan
  | .ninf, .ninf => .ninf
  | .ninf, .val _ => .ninf
  | .val _, .nan => .nan
  | .val _, .inf => .inf
  | .val _, .ninf => .ninf
  | .val x, .val y => .val (x + y)

/-- IEEE-754 subtraction on `PyFloat`. -/
noncomputable def pySub : PyFloat → PyFloat → PyFloat
  | .nan, _ => .nan
  | .inf, .nan => .nan
  | .inf, .inf => .nan
  | .inf, .ninf => .inf
  | .inf, .val _ => .inf
  | .ninf, .nan => .nan
  | .ninf, .inf => .ninf
  | .ninf, .ninf => .nan
  | .ninf, .val _ => .ninf
  | .val _, .nan => .nan
  | .val _, .inf => .ninf
  | .val _, .ninf => .inf
  | .val x, .val y => .val (x - y)

/-- IEEE-754 multiplication on `PyFloat`. -/
noncomputable def pyMul : PyFloat → PyFloat → PyFloat
  | .nan, _ => .nan
  | .inf, .nan => .nan
  | .inf, .inf => .inf
  | .inf, .ninf => .ninf
  | .inf, .val y => if 0 < y then .inf else if y < 0 then .ninf else .nan
  | .ninf, .nan => .nan
  | .ninf, .inf => .ninf
  | .ninf, .ninf => .inf
  | .ninf, .val y => if 0 < y then .ninf else if y < 0 then .inf else .nan
  | .val _, .nan => .nan
  | .val x, .inf => if 0 < x then .inf else if x < 0 then .ninf else .nan
  | .val x, .ninf => if 0 < x then .ninf else if x < 0 then .inf else .nan
  | .val x, .val y => .val (x * y)

/-- IEEE-754/NumPy division on `PyFloat` (NumPy warns but yields
an infinity or NaN on division by zero instead of raising). -/
noncomputable def pyDiv : PyFloat → PyFloat → PyFloat
  | .nan, _ => .nan
  | .inf, .nan => .nan
  | .inf, .inf => .nan
  | .inf, .ninf => .nan
  | .inf, .val y => if 0 ≤ y then .inf else .ninf
  | .ninf, .nan => .nan
  | .ninf, .inf => .nan
  | .ninf, .ninf => .nan
  | .ninf, .val y => if 0 ≤ y then .ninf else .inf
  | .val _, .nan => .nan
  | .val _, .inf => .val 0
  | .val _, .ninf => .val 0
  | .val x, .val y =>
      if y = 0 then (if 0 < x then .inf else if x < 0 then .ninf else .nan)
      else .val (x / y)

/-- Python `<` on floats: any comparison involving NaN is false. -/
def pyLt : PyFloat → PyFloat → Prop
  | .nan, _ => False
  | .inf, _ => False
  | .ninf, .nan => False
  | .ninf, .inf => True
  | .ninf, .ninf => False
  | .ninf, .val _ => True
  | .val _, .nan => False
  | .val _, .inf => True
  | .val _, .ninf => False
  | .val x, .val y => x < y

/-- Python `<=` on floats: any comparison involving NaN is false. -/
def pyLe : PyFloat → PyFloat → Prop
  | .nan, _ => False
  | .inf, .nan => False
  | .inf, .inf => True
  | .inf, .ninf => False
  | .inf, .val _ => False
  | .ninf, .nan => False
  | .ninf, .inf => True
  | .ninf, .ninf => True
  | .ninf, .val _ => True
  | .val _, .nan => False
  | .val _, .inf => True
  | .val _, .ninf => False
  | .val x, .val y => x ≤ y

/-- Python `min(a, b)`: returns `b` exactly when `b < a` (so NaN in the
second slot is never selected, NaN in the first slot is kept). -/
noncomputable def pyMin (a b : PyFloat) : PyFloat := if pyLt b a then b else a

/-- Python `x != 0` on a float: true for NaN and infinities, and for any
finite value other than zero. -/
def pyNe0 : PyFloat → Prop
  | .nan => True
  | .inf => True
  | .ninf => True
  | .val x => x ≠ 0

/-- The values of a series column that are actually present: pandas
`mean`/`std` skip NaN cells (`skipna=True`), modelled here as `none`. -/
def presentVals : List (Option ℝ) → List ℝ
  | [] => []
  | none :: rest => presentVals rest
  | some x :: rest => x :: presentVals rest

/-- pandas `Series.mean()`: arithmetic mean of the present values, NaN
when no value is present. -/
noncomputable def seriesMean (s : List (Option ℝ)) : PyFloat :=
  let xs := presentVals s
  if xs.length = 0 then .nan else .val (xs.sum / (xs.length : ℝ))

/-- pandas `Series.std()` with the default `ddof = 1`: the square root of
the sum of squared deviations from the mean divided by `n - 1`; NaN when
fewer than two values are present. -/
noncomputable def seriesStd (s : List (Option ℝ)) : PyFloat :=
  let xs := presentVals s
  if xs.length ≤ 1 then .nan
  else
    .val (Real.sqrt
      ((xs.map (fun x => (x - xs.sum / (xs.length : ℝ)) ^ 2)).sum /
        ((xs.length : ℝ) - 1)))

/-- `calculate_control_chart_metrics` (src/streamlit_app.py lines 98-103):
mean, UCL = mean + 3*std, LCL = mean - 3*std, in float arithmetic. -/
noncomputable def calculate_control_chart_metrics (s : List (Option ℝ)) :
    PyFloat × PyFloat × PyFloat :=
  let mean := seriesMean s
  let std := seriesStd s
  let ucl := pyAdd mean (pyMul (.val 3) std)
  let lcl := pySub mean (pyMul (.val 3) std)
  (mean, ucl, lcl)

/-- `calculate_process_capability` (src/streamlit_app.py lines 106-118):
`cpu`/`cpl` guarded by `std != 0` (infinity on the zero branch), `cpk`
is the Python `min` of the two, and `ppk` is set to `cpk`. -/
noncomputable def calculate_process_capability (s : List (Option ℝ))
    (lsl usl : ℝ) : PyFloat × PyFloat :=
  let mean := seriesMean s
  let std := seriesStd s
  let cpu := if pyNe0 std then pyDiv (pySub (.val usl) mean) (pyMul (.val 3) std)
             else .inf
  let cpl := if pyNe0 std then pyDiv (pySub mean (.val lsl)) (pyMul (.val 3) std)
             else .inf
  let cpk := pyMin cpu cpl
  let ppk := cpk
  (cpk, ppk)

/-- Arithmetic mean of a list of reals, as the spec's "arithmetic mean of
all present values". -/
noncomputable def arithMean (xs : List ℝ) : ℝ := xs.sum / (xs.length : ℝ)

/-- Sample standard deviation with denominator `n - 1`, as the spec's
"sample standard deviation (denominator = n−1)"; a real number, defined
for lists with at least two elements. -/
noncomputable def sampleStd (xs : List ℝ) : ℝ :=
  Real.sqrt ((xs.map (fun x => (x - arithMean xs) ^ 2)).sum /
    ((xs.length : ℝ) - 1))

/-- The x-axis configuration chosen by `create_control_chart`: label
format string, axis title, and target tick count. -/
structure AxisResolution where
  x_format : String
  x_title : String
  tick_count : Nat
  deriving DecidableEq

/-- The x-axis bucket selection of `create_control_chart`
(src/streamlit_app.py lines 129-144): the time range in seconds is
tested, in order, against 1 day, 30 days and 365 days with inclusive
upper bounds. -/
def axisResolution (time_range : ℚ) : AxisResolution :=
  if time_range ≤ 24 * 60 * 60 then ⟨"%H:%M", "Time", 5⟩
  else if time_range ≤ 30 * 24 * 60 * 60 then ⟨"%b %d", "Date", 7⟩
  else if time_range ≤ 365 * 24 * 60 * 60 then ⟨"%b %Y", "Month", 6⟩
  else ⟨"%Y", "Year", 5⟩

/-! Helper lemmas evaluating the embedded operations. -/

theorem pyMin_val_val (x y : ℝ) : pyMin (.val x) (.val y) = .val (min x y) := by
  unfold pyMin
  by_cases h : y < x
  · rw [if_pos (show pyLt (.val y) (.val x) from h), min_eq_right h.le]
  · rw [if_neg (show ¬ pyLt (.val y) (.val x) from h), min_eq_left (not_lt.mp h)]

theorem pyMin_inf_inf : pyMin .inf .inf = .inf := by
  unfold pyMin
  rw [if_neg (show ¬ pyLt .inf .inf from not_false)]

theorem pyMin_nan_nan : pyMin .nan .nan = .nan := by
  unfold pyMin
  rw [if_neg (show ¬ pyLt .nan .nan from not_false)]

theorem seriesStd_eq_sampleStd (s : List (Option ℝ))
    (h : 2 ≤ (presentVals s).length) :
    seriesStd s = .val (sampleStd (presentVals s)) := by
  have h1 : ¬ (presentVals s).length ≤ 1 := by omega
  simp only [seriesStd, if_neg h1, sampleStd, arithMean]

theorem seriesStd_val_nonneg (s : List (Option ℝ)) (σ : ℝ)
    (h : seriesStd s = .val σ) : 0 ≤ σ := by
  simp only [seriesStd] at h
  by_cases hl : (presentVals s).length ≤ 1
  · rw [if_pos hl] at h
    exact PyFloat.noConfusion h
  · rw [if_neg hl] at h
    injection h with h'
    rw [← h']
    exact Real.sqrt_nonneg _

theorem metrics_eval_two_le (s : List (Option ℝ))
    (h : 2 ≤ (presentVals s).length) :
    calculate_control_chart_metrics s =
      (.val (arithMean (presentVals s)),
       .val (arithMean (presentVals s) + 3 * sampleStd (presentVals s)),
       .val (arithMean (presentVals s) - 3 * sampleStd (presentVals s))) := by
  have h0 : ¬ (presentVals s).length = 0 := by omega
  have h1 : ¬ (presentVals s).length ≤ 1 := by omega
  simp only [calculate_control_chart_metrics, seriesMean, seriesStd,
    if_neg h0, if_neg h1, pyMul, pyAdd, pySub, arithMean, sampleStd]

theorem metrics_eval_single (s : List (Option ℝ)) (x : ℝ)
    (h : presentVals s = [x]) :
    calculate_control_chart_metrics s = (.val x, .nan, .nan) := by
  simp [calculate_control_chart_metrics, seriesMean, seriesStd, h,
    pyMul, pyAdd, pySub]

theorem metrics_eval_empty (s : List (Option ℝ)) (h : presentVals s = []) :
    calculate_control_chart_metrics s = (.nan, .nan, .nan) := by
  simp [calculate_control_chart_metrics, seriesMean, seriesStd, h,
    pyMul, pyAdd, pySub]

theorem capability_eval (s : List (Option ℝ)) (μ σ lsl usl : ℝ)
    (hm : seriesMean s = .val μ) (hs : seriesStd s = .val σ) (h0 : σ ≠ 0) :
    calculate_process_capability s lsl usl =
      (.val (min ((usl - μ) / (3 * σ)) ((μ - lsl) / (3 * σ))),
       .val (min ((usl - μ) / (3 * σ)) ((μ - lsl) / (3 * σ)))) := by
  have h3 : ¬ ((3 : ℝ) * σ = 0) := mul_ne_zero three_ne_zero h0
  simp only [calculate_process_capability, hm, hs]
  rw [if_pos (show pyNe0 (.val σ) from h0), if_pos (show pyNe0 (.val σ) from h0)]
  simp only [pySub, pyMul, pyDiv, if_neg h3]
  rw [pyMin_val_val]

theorem capability_zero_std (s : List (Option ℝ)) (lsl usl : ℝ)
    (hs : seriesStd s = .val 0) :
    calculate_process_capability s lsl usl = (.inf, .inf) := by
  simp only [calculate_process_capability, hs]
  rw [if_neg (show ¬ pyNe0 (.val (0 : ℝ)) from fun h => h rfl),
    if_neg (show ¬ pyNe0 (.val (0 : ℝ)) from fun h => h rfl), pyMin_inf_inf]

theorem capability_nan_std (s : List (Option ℝ)) (μ lsl usl : ℝ)
    (hm : seriesMean s = .val μ) (hs : seriesStd s = .nan) :
    calculate_process_capability s lsl usl = (.nan, .nan) := by
  simp only [calculate_process_capability, hm, hs]
  rw [if_pos (show pyNe0 .nan from trivial), if_pos (show pyNe0 .nan from trivial)]
  simp only [pySub, pyMul, pyDiv, pyMin_nan_nan]

theorem seriesMean_single (s : List (Option ℝ)) (x : ℝ)
    (h : presentVals s = [x]) : seriesMean s = .val x := by
  simp [seriesMean, h]

theorem seriesStd_single (s : List (Option ℝ)) (x : ℝ)
    (h : presentVals s = [x]) : seriesStd s = .nan := by
  simp [seriesStd, h]

theorem capability_single (s : List (Option ℝ)) (x lsl usl : ℝ)
    (h : presentVals s = [x]) :
    calculate_process_capability s lsl usl = (.nan, .nan) :=
  capability_nan_std s x lsl usl (seriesMean_single s x h) (seriesStd_single s x h)

theorem sampleStd_eq (xs : List ℝ) (c : ℝ) (hc : 0 ≤ c)
    (h : (xs.map (fun x => (x - arithMean xs) ^ 2)).sum / ((xs.length : ℝ) - 1)
      = c ^ 2) :
    sampleStd xs = c := by
  unfold sampleStd
  rw [h, Real.sqrt_sq hc]

theorem seriesMean_eval (s : List (Option ℝ)) (xs : List ℝ) (c : ℝ)
    (hxs : presentVals s = xs) (h0 : ¬ xs.length = 0)
    (h : xs.sum / (xs.length : ℝ) = c) :
    seriesMean s = .val c := by
  simp only [seriesMean, hxs, if_neg h0, h]

theorem seriesStd_eval (s : List (Option ℝ)) (xs : List ℝ) (c : ℝ)
    (hxs : presentVals s = xs) (h2 : 2 ≤ xs.length) (hc : 0 ≤ c)
    (h : (xs.map (fun x => (x - arithMean xs) ^ 2)).sum / ((xs.length : ℝ) - 1)
      = c ^ 2) :
    seriesStd s = .val c := by
  have h2' : 2 ≤ (presentVals s).length := by rw [hxs]; exact h2
  rw [seriesStd_eq_sampleStd s h2', hxs, sampleStd_eq xs c hc h]

theorem control_invariant_core (μ σ : ℝ) (hσ : 0 ≤ σ) :
    pyLe (.val (μ - 3 * σ)) (.val μ) ∧
    pyLe (.val μ) (.val (μ + 3 * σ)) ∧
    ((PyFloat.val (μ - 3 * σ) = .val μ ∧ PyFloat.val μ = .val (μ + 3 * σ)) ↔
      PyFloat.val σ = PyFloat.val (0 : ℝ)) := by
  refine ⟨show μ - 3 * σ ≤ μ by linarith, show μ ≤ μ + 3 * σ by linarith, ?_⟩
  constructor
  · rintro ⟨h1, _⟩
    injection h1 with h1'
    have hz : σ = 0 := by linarith
    rw [hz]
  · intro hz
    injection hz with hz'
    rw [hz']
    norm_num

/-! Claim theorems. -/

/-- C1 counterexample: on a series with exactly one present value the
code returns NaN for `ucl`, not `mean + 3 * std` for the (real-valued)
sample standard deviation, because pandas `std` with `ddof = 1` of a
single value is NaN. -/
theorem C1_single_value_ucl_nan :
    (calculate_control_chart_metrics [some (7 : ℝ)]).2.1 = PyFloat.nan := by
  rw [metrics_eval_single [some (7 : ℝ)] 7 rfl]

/-- C1 (amended): for every series with at least two present values the
Control-Limit Calculator returns the arithmetic mean of the present
values, and `ucl`/`lcl` are that mean plus/minus three times the sample
standard deviation with denominator `n - 1` of the present values. -/
theorem C1_control_limit_formulas (s : List (Option ℝ))
    (h : 2 ≤ (presentVals s).length) :
    calculate_control_chart_metrics s =
      (.val (arithMean (presentVals s)),
       .val (arithMean (presentVals s) + 3 * sampleStd (presentVals s)),
       .val (arithMean (presentVals s) - 3 * sampleStd (presentVals s))) :=
  metrics_eval_two_le s h

/-- C1 witness: the control-limit formulas evaluated on the series
[10, 12, 11, 13, 9]. -/
theorem C1_control_limit_formulas_witness :
    2 ≤ (presentVals [some (10 : ℝ), some 12, some 11, some 13, some 9]).length ∧
    calculate_control_chart_metrics [some (10 : ℝ), some 12, some 11, some 13, some 9] =
      (.val (arithMean (presentVals [some (10 : ℝ), some 12, some 11, some 13, some 9])),
       .val (arithMean (presentVals [some (10 : ℝ), some 12, some 11, some 13, some 9]) +
         3 * sampleStd (presentVals [some (10 : ℝ), some 12, some 11, some 13, some 9])),
       .val (arithMean (presentVals [some (10 : ℝ), some 12, some 11, some 13, some 9]) -
         3 * sampleStd (presentVals [some (10 : ℝ), some 12, some 11, some 13, some 9]))) :=
  ⟨by norm_num [presentVals],
   C1_control_limit_formulas _ (by norm_num [presentVals])⟩

/-- C2: whenever the series' standard deviation is a nonzero real σ and
its mean is μ, the Capability Index Calculator returns
`cpk = ppk = min ((usl - μ) / (3σ)) ((μ - lsl) / (3σ))`. -/
theorem C2_capability_formula (s : List (Option ℝ)) (μ σ lsl usl : ℝ)
    (hm : seriesMean s = .val μ) (hs : seriesStd s = .val σ) (h0 : σ ≠ 0) :
    calculate_process_capability s lsl usl =
      (.val (min ((usl - μ) / (3 * σ)) ((μ - lsl) / (3 * σ))),
       .val (min ((usl - μ) / (3 * σ)) ((μ - lsl) / (3 * σ)))) :=
  capability_eval s μ σ lsl usl hm hs h0

/-- C2 witness: the series [95, 100, 105] has mean 100 and sample
standard deviation 5, and with lsl = 85, usl = 115 the calculator
returns cpk = ppk = 1. -/
theorem C2_capability_formula_witness :
    seriesMean [some (95 : ℝ), some 100, some 105] = .val 100 ∧
    seriesStd [some (95 : ℝ), some 100, some 105] = .val 5 ∧
    (5 : ℝ) ≠ 0 ∧
    calculate_process_capability [some (95 : ℝ), some 100, some 105] 85 115 =
      (.val 1, .val 1) := by
  have hm : seriesMean [some (95 : ℝ), some 100, some 105] = .val 100 :=
    seriesMean_eval _ [95, 100, 105] 100 (by simp [presentVals]) (by norm_num)
      (by norm_num)
  have hs : seriesStd [some (95 : ℝ), some 100, some 105] = .val 5 :=
    seriesStd_eval _ [95, 100, 105] 5 (by simp [presentVals]) (by norm_num)
      (by norm_num) (by norm_num [arithMean])
  refine ⟨hm, hs, by norm_num, ?_⟩
  rw [C2_capability_formula _ 100 5 85 115 hm hs (by norm_num)]
  norm_num

/-- C3: the axis-resolution selector is a pure function of the span in
seconds with four buckets tested in ascending order under inclusive
upper bounds: up to one day the hour:minute "Time" bucket with 5 ticks,
then up to 30 days the month-day "Date" bucket with 7 ticks, then up to
365 days the month-year "Month" bucket with 6 ticks, and beyond that the
year-only "Year" bucket with 5 ticks. -/
theorem C3_axis_resolution_buckets (t : ℚ) :
    (t ≤ 86400 → axisResolution t = ⟨"%H:%M", "Time", 5⟩) ∧
    (86400 < t → t ≤ 2592000 → axisResolution t = ⟨"%b %d", "Date", 7⟩) ∧
    (2592000 < t → t ≤ 31536000 → axisResolution t = ⟨"%b %Y", "Month", 6⟩) ∧
    (31536000 < t → axisResolution t = ⟨"%Y", "Year", 5⟩) := by
  have e1 : (24 * 60 * 60 : ℚ) = 86400 := by norm_num
  have e2 : (30 * 24 * 60 * 60 : ℚ) = 2592000 := by norm_num
  have e3 : (365 * 24 * 60 * 60 : ℚ) = 31536000 := by norm_num
  unfold axisResolution
  rw [e1, e2, e3]
  refine ⟨fun h1 => ?_, fun h1 h2 => ?_, fun h1 h2 => ?_, fun h1 => ?_⟩
  · rw [if_pos h1]
  · rw [if_neg (not_le.mpr h1), if_pos h2]
  · rw [if_neg (not_le.mpr (by linarith)), if_neg (not_le.mpr h1), if_pos h2]
  · rw [if_neg (not_le.mpr (by linarith)), if_neg (not_le.mpr (by linarith)),
      if_neg (not_le.mpr h1)]

/-- C3 witness: a span of exactly 86400 seconds selects the "Time"
bucket, 86401 seconds selects "Date", and 864000 seconds (10 days)
selects "Date" with tick count 7. -/
theorem C3_axis_resolution_buckets_witness :
    axisResolution 86400 = ⟨"%H:%M", "Time", 5⟩ ∧
    axisResolution 86401 = ⟨"%b %d", "Date", 7⟩ ∧
    axisResolution 864000 = ⟨"%b %d", "Date", 7⟩ :=
  ⟨(C3_axis_resolution_buckets 86400).1 (by norm_num),
   (C3_axis_resolution_buckets 86401).2.1 (by norm_num) (by norm_num),
   (C3_axis_resolution_buckets 864000).2.1 (by norm_num) (by norm_num)⟩

/-- C4 counterexample: on a series with zero present values the
Control-Limit Calculator returns the result (NaN, NaN, NaN) instead of
raising; no `EmptySeriesError` exists in the code. -/
theorem C4_empty_series_returns_result :
    calculate_control_chart_metrics ([] : List (Option ℝ)) =
      (.nan, .nan, .nan) :=
  metrics_eval_empty [] rfl

/-- C4 (amended): the Control-Limit Calculator never raises on a series
with zero present values: it returns NaN for mean, ucl and lcl; the
no-data case is handled by the caller's `data.empty` guard instead. -/
theorem C4_empty_series_nan (s : List (Option ℝ)) (h : presentVals s = []) :
    calculate_control_chart_metrics s = (.nan, .nan, .nan) :=
  metrics_eval_empty s h

/-- C4 witness: a series consisting of a single absent cell has zero
present values and yields (NaN, NaN, NaN). -/
theorem C4_empty_series_nan_witness :
    presentVals [(none : Option ℝ)] = [] ∧
    calculate_control_chart_metrics [(none : Option ℝ)] = (.nan, .nan, .nan) :=
  ⟨rfl, C4_empty_series_nan _ rfl⟩

/-- C5: when the series' standard deviation is exactly zero, both
specification-limit ratios take the `float('inf')` branch and the
calculator returns cpk = ppk = positive infinity, for any lsl < usl. -/
theorem C5_zero_std_infinite_capability (s : List (Option ℝ)) (lsl usl : ℝ)
    (hs : seriesStd s = .val 0) (_hlu : lsl < usl) :
    calculate_process_capability s lsl usl = (.inf, .inf) :=
  capability_zero_std s lsl usl hs

/-- C5 witness: the constant series [5, 5] has standard deviation 0 and
yields cpk = ppk = +inf with lsl = 1 < usl = 2. -/
theorem C5_zero_std_infinite_capability_witness :
    seriesStd [some (5 : ℝ), some 5] = .val 0 ∧ (1 : ℝ) < 2 ∧
    calculate_process_capability [some (5 : ℝ), some 5] 1 2 = (.inf, .inf) := by
  have hs : seriesStd [some (5 : ℝ), some 5] = .val 0 :=
    seriesStd_eval _ [5, 5] 0 (by simp [presentVals]) (by norm_num) (by norm_num)
      (by norm_num [arithMean])
  exact ⟨hs, by norm_num, C5_zero_std_infinite_capability _ 1 2 hs (by norm_num)⟩

/-- C6: for every series and every pair of specification limits the
returned ppk equals the returned cpk (the code sets `ppk = cpk`). -/
theorem C6_ppk_equals_cpk (s : List (Option ℝ)) (lsl usl : ℝ) :
    (calculate_process_capability s lsl usl).2 =
      (calculate_process_capability s lsl usl).1 := rfl

/-- C7 counterexample: for the series [7] the code does not return
ucl = lcl = mean = 7; pandas `std` of a single value is NaN, so ucl and
lcl are NaN. -/
theorem C7_single_value_not_mean :
    calculate_control_chart_metrics [some (7 : ℝ)] ≠ (.val 7, .val 7, .val 7) := by
  rw [metrics_eval_single [some (7 : ℝ)] 7 rfl]
  intro h
  injection h with h1 h2
  injection h2 with h3 h4
  exact PyFloat.noConfusion h3

/-- C7 (amended): for a series with exactly one present value the mean
is that value and std is NaN (pandas `ddof = 1`), so ucl and lcl are
NaN; no division error is raised — the function returns normally. -/
theorem C7_single_value_nan_limits (s : List (Option ℝ)) (x : ℝ)
    (h : presentVals s = [x]) :
    calculate_control_chart_metrics s = (.val x, .nan, .nan) :=
  metrics_eval_single s x h

/-- C7 witness: the series [7] yields mean 7 and NaN control limits. -/
theorem C7_single_value_nan_limits_witness :
    presentVals [some (7 : ℝ)] = [7] ∧
    calculate_control_chart_metrics [some (7 : ℝ)] = (.val 7, .nan, .nan) :=
  ⟨rfl, C7_single_value_nan_limits _ 7 rfl⟩

/-- C8 counterexample: for the non-empty series [3] the invariant
`lcl ≤ mean` fails, because lcl is NaN and NaN comparisons are false. -/
theorem C8_single_value_order_fails :
    ¬ pyLe (calculate_control_chart_metrics [some (3 : ℝ)]).2.2
      (calculate_control_chart_metrics [some (3 : ℝ)]).1 := by
  rw [metrics_eval_single [some (3 : ℝ)] 3 rfl]
  exact not_false

/-- C8 (amended): for every series with at least two present values the
returned limits satisfy lcl ≤ mean ≤ ucl, with lcl = mean = ucl exactly
when the standard deviation is zero. -/
theorem C8_control_limit_invariant (s : List (Option ℝ))
    (h : 2 ≤ (presentVals s).length) :
    pyLe (calculate_control_chart_metrics s).2.2
      (calculate_control_chart_metrics s).1 ∧
    pyLe (calculate_control_chart_metrics s).1
      (calculate_control_chart_metrics s).2.1 ∧
    (((calculate_control_chart_metrics s).2.2 =
        (calculate_control_chart_metrics s).1 ∧
      (calculate_control_chart_metrics s).1 =
        (calculate_control_chart_metrics s).2.1) ↔
      seriesStd s = .val 0) := by
  rw [metrics_eval_two_le s h, seriesStd_eq_sampleStd s h]
  exact control_invariant_core (arithMean (presentVals s))
    (sampleStd (presentVals s)) (Real.sqrt_nonneg _)

/-- C8 witness: the invariant evaluated on the two-value series [1, 3]. -/
theorem C8_control_limit_invariant_witness :
    2 ≤ (presentVals [some (1 : ℝ), some 3]).length ∧
    (pyLe (calculate_control_chart_metrics [some (1 : ℝ), some 3]).2.2
      (calculate_control_chart_metrics [some (1 : ℝ), some 3]).1 ∧
     pyLe (calculate_control_chart_metrics [some (1 : ℝ), some 3]).1
      (calculate_control_chart_metrics [some (1 : ℝ), some 3]).2.1 ∧
     (((calculate_control_chart_metrics [some (1 : ℝ), some 3]).2.2 =
        (calculate_control_chart_metrics [some (1 : ℝ), some 3]).1 ∧
       (calculate_control_chart_metrics [some (1 : ℝ), some 3]).1 =
        (calculate_control_chart_metrics [some (1 : ℝ), some 3]).2.1) ↔
       seriesStd [some (1 : ℝ), some 3] = .val 0)) :=
  ⟨by norm_num [presentVals],
   C8_control_limit_invariant _ (by norm_num [presentVals])⟩

/-- C9 counterexample: with the series [-1, 0, 1] (mean 0, std 1), the
limit pair (-3, 3) has width 6 and cpk = 1, while the wider pair
(-30, 3/2) has width 31.5 but cpk = 1/2; both pairs bracket the mean,
so cpk is not monotonically non-decreasing in the width usl - lsl. -/
theorem C9_width_monotonicity_fails :
    seriesMean [some (-1 : ℝ), some 0, some 1] = .val 0 ∧
    seriesStd [some (-1 : ℝ), some 0, some 1] = .val 1 ∧
    ((-3 : ℝ) ≤ 0 ∧ (0 : ℝ) ≤ 3) ∧ ((-30 : ℝ) ≤ 0 ∧ (0 : ℝ) ≤ 3 / 2) ∧
    ((3 : ℝ) - (-3) ≤ 3 / 2 - (-30)) ∧
    (calculate_process_capability [some (-1 : ℝ), some 0, some 1] (-3) 3).1 =
      .val 1 ∧
    (calculate_process_capability [some (-1 : ℝ), some 0, some 1] (-30) (3 / 2)).1 =
      .val (1 / 2) ∧
    ¬ pyLe (calculate_process_capability [some (-1 : ℝ), some 0, some 1] (-3) 3).1
      (calculate_process_capability [some (-1 : ℝ), some 0, some 1] (-30) (3 / 2)).1 := by
  have hm : seriesMean [some (-1 : ℝ), some 0, some 1] = .val 0 :=
    seriesMean_eval _ [-1, 0, 1] 0 (by simp [presentVals]) (by norm_num)
      (by norm_num)
  have hs : seriesStd [some (-1 : ℝ), some 0, some 1] = .val 1 :=
    seriesStd_eval _ [-1, 0, 1] 1 (by simp [presentVals]) (by norm_num)
      (by norm_num) (by norm_num [arithMean])
  have e1 : (calculate_process_capability [some (-1 : ℝ), some 0, some 1]
      (-3) 3).1 = .val 1 := by
    rw [capability_eval _ 0 1 (-3) 3 hm hs (by norm_num)]
    norm_num
  have e2 : (calculate_process_capability [some (-1 : ℝ), some 0, some 1]
      (-30) (3 / 2)).1 = .val (1 / 2) := by
    rw [capability_eval _ 0 1 (-30) (3 / 2) hm hs (by norm_num)]
    norm_num
  refine ⟨hm, hs, ⟨by norm_num, by norm_num⟩, ⟨by norm_num, by norm_num⟩,
    by norm_num, e1, e2, ?_⟩
  rw [e1, e2]
  show ¬ ((1 : ℝ) ≤ 1 / 2)
  norm_num

/-- C9 (amended): with mean and standard deviation fixed and
specification limits bracketing the mean, cpk is monotonically
non-decreasing when the limits are widened on both sides
(lsl₂ ≤ lsl₁ and usl₁ ≤ usl₂), rather than in the width usl - lsl. -/
theorem C9_nested_limits_monotone (s : List (Option ℝ))
    (μ σ lsl₁ usl₁ lsl₂ usl₂ : ℝ)
    (hm : seriesMean s = .val μ) (hs : seriesStd s = .val σ)
    (_hc1 : lsl₁ ≤ μ) (_hc2 : μ ≤ usl₁)
    (hl : lsl₂ ≤ lsl₁) (hu : usl₁ ≤ usl₂) :
    pyLe (calculate_process_capability s lsl₁ usl₁).1
      (calculate_process_capability s lsl₂ usl₂).1 := by
  have hσ0 : 0 ≤ σ := seriesStd_val_nonneg s σ hs
  by_cases hz : σ = 0
  · rw [hz] at hs
    rw [capability_zero_std s lsl₁ usl₁ hs, capability_zero_std s lsl₂ usl₂ hs]
    trivial
  · have hσ : 0 < 3 * σ := by
      have : 0 < σ := lt_of_le_of_ne hσ0 (Ne.symm hz)
      linarith
    rw [capability_eval s μ σ lsl₁ usl₁ hm hs hz,
      capability_eval s μ σ lsl₂ usl₂ hm hs hz]
    show min ((usl₁ - μ) / (3 * σ)) ((μ - lsl₁) / (3 * σ)) ≤
      min ((usl₂ - μ) / (3 * σ)) ((μ - lsl₂) / (3 * σ))
    apply min_le_min
    · exact (div_le_div_iff_of_pos_right hσ).mpr (by linarith)
    · exact (div_le_div_iff_of_pos_right hσ).mpr (by linarith)

/-- C9 amended witness: widening (-3, 3) to (-4, 5) around the series
[-1, 0, 1] does not decrease cpk. -/
theorem C9_nested_limits_monotone_witness :
    seriesMean [some (-1 : ℝ), some 0, some 1] = .val 0 ∧
    seriesStd [some (-1 : ℝ), some 0, some 1] = .val 1 ∧
    ((-3 : ℝ) ≤ 0) ∧ ((0 : ℝ) ≤ 3) ∧ ((-4 : ℝ) ≤ -3) ∧ ((3 : ℝ) ≤ 5) ∧
    pyLe (calculate_process_capability [some (-1 : ℝ), some 0, some 1] (-3) 3).1
      (calculate_process_capability [some (-1 : ℝ), some 0, some 1] (-4) 5).1 := by
  have hm : seriesMean [some (-1 : ℝ), some 0, some 1] = .val 0 :=
    seriesMean_eval _ [-1, 0, 1] 0 (by simp [presentVals]) (by norm_num)
      (by norm_num)
  have hs : seriesStd [some (-1 : ℝ), some 0, some 1] = .val 1 :=
    seriesStd_eval _ [-1, 0, 1] 1 (by simp [presentVals]) (by norm_num)
      (by norm_num) (by norm_num [arithMean])
  exact ⟨hm, hs, by norm_num, by norm_num, by norm_num, by norm_num,
    C9_nested_limits_monotone _ 0 1 (-3) 3 (-4) 5 hm hs (by norm_num)
      (by norm_num) (by norm_num) (by norm_num)⟩

/-- C10: for a series with exactly one present value the sample standard
deviation is NaN, NaN compares unequal to zero so the division branch is
taken, and the divisions by 3 * NaN make the calculator return
cpk = ppk = NaN. -/
theorem C10_single_value_nan_capability (s : List (Option ℝ)) (x lsl usl : ℝ)
    (h : presentVals s = [x]) :
    calculate_process_capability s lsl usl = (.nan, .nan) :=
  capability_single s x lsl usl h

/-- C10 witness: the single-value series [7] yields cpk = ppk = NaN for
the limits (0, 1). -/
theorem C10_single_value_nan_capability_witness :
    presentVals [some (7 : ℝ)] = [7] ∧
    calculate_process_capability [some (7 : ℝ)] 0 1 = (.nan, .nan) :=
  ⟨rfl, C10_single_value_nan_capability _ 7 0 1 rfl⟩

end ProcessMetrics
